import Mathlib

/-!
MSM thermal throttling driver (`drivers/thermal/msm_thermal.c`).

A shallow embedding of the polling work function `msm_thermal_main` and of
`update_maxfreq`, together with the properties of the throttling state machine.

All quantities of the driver are `unsigned int` / `unsigned long` values that
are only compared and copied, never combined arithmetically, so they are
modelled as natural numbers.
-/

namespace MsmThermal

/-- The tunables `struct msm_thermal_tuners`. -/
structure msm_thermal_tuners where
  trip_high_thresh : Nat
  reset_high_thresh : Nat
  freq_high_thresh : Nat
  trip_mid_thresh : Nat
  reset_mid_thresh : Nat
  freq_mid_thresh : Nat
  trip_low_thresh : Nat
  reset_low_thresh : Nat
  freq_low_thresh : Nat
  check_interval_ms : Nat
  deriving DecidableEq, Repr

/-- The built-in initialiser of `therm_conf`. -/
def therm_conf : msm_thermal_tuners where
  trip_high_thresh := 80
  reset_high_thresh := 75
  freq_high_thresh := 384000
  trip_mid_thresh := 69
  reset_mid_thresh := 65
  freq_mid_thresh := 972000
  trip_low_thresh := 64
  reset_low_thresh := 60
  freq_low_thresh := 1188000
  check_interval_ms := 3000

/-- The variables that survive from one run of `msm_thermal_main` to the next:
the file-scope statics `thermal_throttled` and `saved_maxfreq`, and the
function-scope `static unsigned int maxfreq`. -/
structure Ctl where
  thermal_throttled : Nat
  saved_maxfreq : Nat
  maxfreq : Nat
  deriving DecidableEq, Repr

/-- Values of the statics at module load: all three are initialised to `0`. -/
def Ctl.init : Ctl := ⟨0, 0, 0⟩

/-- Everything a run of `msm_thermal_main` reads and writes once the policy has
been acquired: the three statics, `policy->user_policy.max`, and the arguments
of the `update_maxfreq` calls made so far in this run (oldest first). -/
structure Frame where
  thermal_throttled : Nat
  saved_maxfreq : Nat
  maxfreq : Nat
  user_policy_max : Nat
  calls : List Nat
  deriving DecidableEq, Repr

/-- `update_maxfreq(policy, maxfreq)`: stores `maxfreq` in
`policy->user_policy.max` and triggers a policy update. -/
def update_maxfreq (f : Frame) (maxfreq : Nat) : Frame :=
  { f with user_policy_max := maxfreq, calls := f.calls ++ [maxfreq] }

/-- What one run of `msm_thermal_main` leaves behind: the statics, the value of
`policy->user_policy.max` (`none` when no policy was acquired), and the
arguments of the `update_maxfreq` calls it made, in order. -/
structure Outcome where
  ctl : Ctl
  policy : Option Nat
  calls : List Nat
  deriving DecidableEq, Repr

/-- The if / else-if chain of `msm_thermal_main` (low trip, low clear, mid trip,
mid clear, high trip, high clear), in source order. -/
def trip_chain (conf : msm_thermal_tuners) (temp : Nat) (f : Frame) : Frame :=
  if temp ≥ conf.trip_low_thresh ∧ temp < conf.trip_mid_thresh ∧
      f.thermal_throttled = 0 then
    { f with maxfreq := conf.freq_low_thresh, thermal_throttled := 1 }
  else if temp ≤ conf.reset_low_thresh ∧ f.thermal_throttled ≠ 0 then
    { update_maxfreq f f.saved_maxfreq with thermal_throttled := 0, maxfreq := 0 }
  else if temp ≥ conf.trip_mid_thresh ∧ temp < conf.trip_high_thresh ∧
      f.thermal_throttled < 2 then
    { f with maxfreq := conf.freq_mid_thresh, thermal_throttled := 2 }
  else if temp < conf.reset_mid_thresh ∧ f.thermal_throttled > 1 then
    { f with maxfreq := conf.freq_low_thresh, thermal_throttled := 1 }
  else if temp ≥ conf.trip_high_thresh ∧ f.thermal_throttled < 3 then
    { f with maxfreq := conf.freq_high_thresh, thermal_throttled := 3 }
  else if temp < conf.reset_high_thresh ∧ f.thermal_throttled > 2 then
    { f with maxfreq := conf.freq_mid_thresh, thermal_throttled := 2 }
  else f

/-- One run of the work function `msm_thermal_main`.

* `ret`, `temp`: the return value of `tsens_get_temp` and the temperature it
  stored;
* `policy`: the result of `cpufreq_cpu_get(0)`, `none` for a null pointer and
  `some m` for a policy whose `user_policy.max` is `m`.

Rescheduling of the delayed work is not part of the model. -/
def msm_thermal_main (conf : msm_thermal_tuners) (s : Ctl) (ret : Int) (temp : Nat)
    (policy : Option Nat) : Outcome :=
  if ret ≠ 0 ∨ temp > 1000 then
    ⟨s, policy, []⟩
  else
    match policy with
    | none => ⟨s, none, []⟩
    | some pmax =>
      let saved :=
        if s.thermal_throttled = 0 ∨ s.saved_maxfreq < pmax then pmax
        else s.saved_maxfreq
      let f0 : Frame := ⟨s.thermal_throttled, saved, s.maxfreq, pmax, []⟩
      let f1 := trip_chain conf temp f0
      let f2 := if f1.maxfreq ≠ 0 then update_maxfreq f1 f1.maxfreq else f1
      ⟨⟨f2.thermal_throttled, f2.saved_maxfreq, f2.maxfreq⟩, some f2.user_policy_max, f2.calls⟩

/-- States of the statics that the driver can be in: the load-time values, and
whatever any run of `msm_thermal_main` makes of a reachable state, under any
tunables (they are writable through sysfs), sensor result and policy. -/
inductive Reachable : Ctl → Prop
  | init : Reachable Ctl.init
  | step (conf : msm_thermal_tuners) (s : Ctl) (ret : Int) (temp : Nat)
      (policy : Option Nat) :
      Reachable s → Reachable (msm_thermal_main conf s ret temp policy).ctl

/-- A run of successful polls against a policy whose `user_policy.max` is
changed by nothing but `update_maxfreq`: the sensor read succeeds, the policy
is acquired, and each poll sees the maximum the previous one left. The result
lists the outcome of every poll, oldest first. -/
def poll_run (conf : msm_thermal_tuners) : Ctl → Nat → List Nat → List Outcome
  | _, _, [] => []
  | s, pmax, temp :: temps =>
    let o := msm_thermal_main conf s 0 temp (some pmax)
    o :: poll_run conf o.ctl (o.policy.getD pmax) temps

/-- The guards of the six branches of the chain all fail for temperature `temp`
at throttle level `level`. -/
def no_rule_fires (conf : msm_thermal_tuners) (temp level : Nat) : Prop :=
  ¬ (temp ≥ conf.trip_low_thresh ∧ temp < conf.trip_mid_thresh ∧ level = 0) ∧
  ¬ (temp ≤ conf.reset_low_thresh ∧ level ≠ 0) ∧
  ¬ (temp ≥ conf.trip_mid_thresh ∧ temp < conf.trip_high_thresh ∧ level < 2) ∧
  ¬ (temp < conf.reset_mid_thresh ∧ level > 1) ∧
  ¬ (temp ≥ conf.trip_high_thresh ∧ level < 3) ∧
  ¬ (temp < conf.reset_high_thresh ∧ level > 2)

instance (conf : msm_thermal_tuners) (temp level : Nat) :
    Decidable (no_rule_fires conf temp level) := by
  unfold no_rule_fires; infer_instance

/-- The threshold ordering: `reset_low < trip_low < trip_mid < trip_high`, each
reset threshold below its trip threshold, and the reset thresholds ordered
low < mid < high. -/
def thresholds_ordered (conf : msm_thermal_tuners) : Prop :=
  conf.reset_low_thresh < conf.trip_low_thresh ∧
  conf.trip_low_thresh < conf.trip_mid_thresh ∧
  conf.trip_mid_thresh < conf.trip_high_thresh ∧
  conf.reset_mid_thresh < conf.trip_mid_thresh ∧
  conf.reset_high_thresh < conf.trip_high_thresh ∧
  conf.reset_low_thresh < conf.reset_mid_thresh ∧
  conf.reset_mid_thresh < conf.reset_high_thresh

instance (conf : msm_thermal_tuners) : Decidable (thresholds_ordered conf) := by
  unfold thresholds_ordered; infer_instance

/-- The statics and `policy->user_policy.max` at the end of a run of
successful polls against a policy that only `update_maxfreq` changes (the last
state of `poll_run`). -/
def poll_end (conf : msm_thermal_tuners) : Ctl → Nat → List Nat → Ctl × Nat
  | s, pmax, [] => (s, pmax)
  | s, pmax, temp :: temps =>
    let o := msm_thermal_main conf s 0 temp (some pmax)
    poll_end conf o.ctl (o.policy.getD pmax) temps

/-- What holds throughout a run that started unthrottled with maximum `C`, when
no tunable frequency exceeds `C`: unthrottled, nothing is pending and the
policy maximum is `C`; throttled, `saved_maxfreq` is `C` and the policy maximum
and the pending frequency are at most `C`. -/
def restore_inv (C : Nat) (c : Ctl) (m : Nat) : Prop :=
  (c.thermal_throttled = 0 → c.maxfreq = 0 ∧ m = C) ∧
  (c.thermal_throttled ≠ 0 → c.saved_maxfreq = C) ∧
  m ≤ C ∧ c.maxfreq ≤ C

/-- The frequency that the chain stores in `maxfreq` together with each value
of `thermal_throttled`: nothing for 0 (low clear), `freq_low_thresh` for 1 (low
trip, mid clear), `freq_mid_thresh` for 2 (mid trip, high clear) and
`freq_high_thresh` for 3 (high trip). -/
def capOf (conf : msm_thermal_tuners) : Nat → Nat
  | 1 => conf.freq_low_thresh
  | 2 => conf.freq_mid_thresh
  | 3 => conf.freq_high_thresh
  | _ => 0

/-- States of the statics reachable from the load-time values when the tunables
stay `conf` for the whole run; sensor results and policies are arbitrary. -/
inductive ReachableUnder (conf : msm_thermal_tuners) : Ctl → Prop
  | init : ReachableUnder conf Ctl.init
  | step (s : Ctl) (ret : Int) (temp : Nat) (policy : Option Nat) :
      ReachableUnder conf s →
      ReachableUnder conf (msm_thermal_main conf s ret temp policy).ctl

/-- The arguments of all `update_maxfreq` calls made during a run of successful
polls against a policy that only `update_maxfreq` changes, oldest first (the
`calls` of `poll_run`, concatenated). -/
def poll_writes (conf : msm_thermal_tuners) : Ctl → Nat → List Nat → List Nat
  | _, _, [] => []
  | s, pmax, temp :: temps =>
    let o := msm_thermal_main conf s 0 temp (some pmax)
    o.calls ++ poll_writes conf o.ctl (o.policy.getD pmax) temps

/-- What holds throughout a run against a policy that only `update_maxfreq`
changes, where `M` is the largest of the starting maximum and the values
written so far: unthrottled, nothing is pending and the policy maximum is `M`;
throttled, the larger of `saved_maxfreq` and the policy maximum is `M`. -/
def high_water_inv (M : Nat) (c : Ctl) (m : Nat) : Prop :=
  (c.thermal_throttled = 0 → c.maxfreq = 0 ∧ m = M) ∧
  (c.thermal_throttled ≠ 0 → max c.saved_maxfreq m = M)

/-! Auxiliary facts -/

/-- A successful poll, written out: the refresh of `saved_maxfreq`, the chain,
and the final conditional `update_maxfreq`. -/
theorem main_valid (conf : msm_thermal_tuners) (s : Ctl) (temp pmax : Nat)
    (ht : temp ≤ 1000) :
    msm_thermal_main conf s 0 temp (some pmax) =
      (let f1 := trip_chain conf temp ⟨s.thermal_throttled,
          (if s.thermal_throttled = 0 ∨ s.saved_maxfreq < pmax then pmax
           else s.saved_maxfreq),
          s.maxfreq, pmax, []⟩
       ⟨⟨f1.thermal_throttled, f1.saved_maxfreq, f1.maxfreq⟩,
        some (if f1.maxfreq ≠ 0 then f1.maxfreq else f1.user_policy_max),
        if f1.maxfreq ≠ 0 then f1.calls ++ [f1.maxfreq] else f1.calls⟩) := by
  have h1 : ¬ ((0 : Int) ≠ 0 ∨ temp > 1000) := by omega
  simp only [msm_thermal_main, if_neg h1]
  by_cases h : (trip_chain conf temp ⟨s.thermal_throttled,
          (if s.thermal_throttled = 0 ∨ s.saved_maxfreq < pmax then pmax
           else s.saved_maxfreq),
          s.maxfreq, pmax, []⟩).maxfreq ≠ 0
  · simp only [if_pos h, update_maxfreq]
  · simp only [if_neg h]

/-- A poll that fails early returns the statics as they were, with no call. -/
theorem main_abort (conf : msm_thermal_tuners) (s : Ctl) (ret : Int) (temp : Nat)
    (policy : Option Nat) (h : ret ≠ 0 ∨ temp > 1000 ∨ policy = none) :
    msm_thermal_main conf s ret temp policy = ⟨s, policy, []⟩ := by
  unfold msm_thermal_main
  split_ifs with h1
  · rfl
  · rcases h with h | h | h
    · exact absurd (Or.inl h) h1
    · exact absurd (Or.inr h) h1
    · subst h; rfl

/-- The chain keeps "not throttled implies no pending frequency". -/
theorem trip_chain_idle (conf : msm_thermal_tuners) (temp : Nat) (f : Frame)
    (h : f.thermal_throttled = 0 → f.maxfreq = 0) :
    (trip_chain conf temp f).thermal_throttled = 0 →
      (trip_chain conf temp f).maxfreq = 0 := by
  unfold trip_chain
  split_ifs <;> first | exact h | simp [update_maxfreq]

/-- One poll keeps "not throttled implies no pending frequency". -/
theorem tick_keeps_idle_cap (conf : msm_thermal_tuners) (s : Ctl) (ret : Int)
    (temp : Nat) (policy : Option Nat)
    (h : s.thermal_throttled = 0 → s.maxfreq = 0) :
    (msm_thermal_main conf s ret temp policy).ctl.thermal_throttled = 0 →
      (msm_thermal_main conf s ret temp policy).ctl.maxfreq = 0 := by
  by_cases h1 : ret ≠ 0 ∨ temp > 1000
  · simp only [msm_thermal_main, if_pos h1]; exact h
  · cases policy with
    | none => simp only [msm_thermal_main, if_neg h1]; exact h
    | some pmax =>
      have hr : ret = 0 := by omega
      subst hr
      rw [main_valid conf s temp pmax (by omega)]
      exact trip_chain_idle conf temp _ h

/-- In every reachable state, `maxfreq` is `0` whenever the driver is not
throttled. -/
theorem reachable_idle_cap {s : Ctl} (h : Reachable s) :
    s.thermal_throttled = 0 → s.maxfreq = 0 := by
  induction h with
  | init => intro _; rfl
  | step conf s ret temp policy _ ih =>
    exact tick_keeps_idle_cap conf s ret temp policy ih

/-- When no guard of the chain holds, the chain changes nothing. -/
theorem trip_chain_no_rule (conf : msm_thermal_tuners) (temp : Nat) (f : Frame)
    (h : no_rule_fires conf temp f.thermal_throttled) : trip_chain conf temp f = f := by
  obtain ⟨h1, h2, h3, h4, h5, h6⟩ := h
  unfold trip_chain
  rw [if_neg h1, if_neg h2, if_neg h3, if_neg h4, if_neg h5, if_neg h6]

/-- The three shapes of the chain's result: nothing changed; the low clear
point (the only branch that calls `update_maxfreq` or sets the level to 0); or a
move to a non-zero level with one of the three tunable frequencies pending. -/
theorem trip_chain_cases (conf : msm_thermal_tuners) (temp : Nat) (f : Frame) :
    trip_chain conf temp f = f ∨
    (f.thermal_throttled ≠ 0 ∧ temp ≤ conf.reset_low_thresh ∧
      trip_chain conf temp f =
        ⟨0, f.saved_maxfreq, 0, f.saved_maxfreq, f.calls ++ [f.saved_maxfreq]⟩) ∨
    (∃ k q, k ≠ 0 ∧
      (q = conf.freq_low_thresh ∨ q = conf.freq_mid_thresh ∨
        q = conf.freq_high_thresh) ∧
      trip_chain conf temp f = ⟨k, f.saved_maxfreq, q, f.user_policy_max, f.calls⟩) := by
  unfold trip_chain
  split_ifs with h1 h2 h3 h4 h5 h6
  · exact Or.inr (Or.inr ⟨1, _, by decide, Or.inl rfl, rfl⟩)
  · exact Or.inr (Or.inl ⟨h2.2, h2.1, rfl⟩)
  · exact Or.inr (Or.inr ⟨2, _, by decide, Or.inr (Or.inl rfl), rfl⟩)
  · exact Or.inr (Or.inr ⟨1, _, by decide, Or.inl rfl, rfl⟩)
  · exact Or.inr (Or.inr ⟨3, _, by decide, Or.inr (Or.inr rfl), rfl⟩)
  · exact Or.inr (Or.inr ⟨2, _, by decide, Or.inr (Or.inl rfl), rfl⟩)
  · exact Or.inl rfl

/-- One successful poll preserves `restore_inv`. -/
theorem restore_inv_step (conf : msm_thermal_tuners) (C : Nat) (c : Ctl) (m temp : Nat)
    (hl : conf.freq_low_thresh ≤ C) (hm : conf.freq_mid_thresh ≤ C)
    (hh : conf.freq_high_thresh ≤ C) (h : restore_inv C c m) :
    restore_inv C (msm_thermal_main conf c 0 temp (some m)).ctl
      ((msm_thermal_main conf c 0 temp (some m)).policy.getD m) := by
  by_cases ht : temp ≤ 1000
  · obtain ⟨h0, h1, h2, h3⟩ := h
    have hsv : (if c.thermal_throttled = 0 ∨ c.saved_maxfreq < m then m
        else c.saved_maxfreq) = C := by
      by_cases hz : c.thermal_throttled = 0
      · rw [if_pos (Or.inl hz)]; exact (h0 hz).2
      · have := h1 hz
        split_ifs with hc
        · rcases hc with hc | hc
          · exact absurd hc hz
          · omega
        · exact this
    rw [main_valid conf c temp m ht, hsv]
    rcases trip_chain_cases conf temp ⟨c.thermal_throttled, C, c.maxfreq, m, []⟩
      with e | ⟨_, _, e⟩ | ⟨k, q, hk, hq, e⟩
    · simp only [e, restore_inv, Option.getD_some]
      refine ⟨fun hz => ?_, fun hz => ?_, ?_, h3⟩
      · obtain ⟨a, b⟩ := h0 hz
        simp [a, b]
      · trivial
      · split_ifs <;> omega
    · simp [e, restore_inv]
    · have hq' : q ≤ C := by rcases hq with r | r | r <;> omega
      simp only [e, restore_inv, Option.getD_some]
      refine ⟨fun hz => absurd hz hk, fun _ => trivial, ?_, hq'⟩
      split_ifs <;> omega
  · rw [main_abort conf c 0 temp (some m) (Or.inr (Or.inl (by omega)))]
    exact h

/-- A run of successful polls preserves `restore_inv`. -/
theorem poll_end_inv (conf : msm_thermal_tuners) (C : Nat)
    (hl : conf.freq_low_thresh ≤ C) (hm : conf.freq_mid_thresh ≤ C)
    (hh : conf.freq_high_thresh ≤ C) (temps : List Nat) :
    ∀ (c : Ctl) (m : Nat), restore_inv C c m →
      restore_inv C (poll_end conf c m temps).1 (poll_end conf c m temps).2 := by
  induction temps with
  | nil => intro c m h; exact h
  | cons t ts ih =>
    intro c m h
    simp only [poll_end]
    exact ih _ _ (restore_inv_step conf C c m t hl hm hh h)

/-- Under the threshold ordering, the chain does not lower a level whose reset
threshold lies strictly below the temperature. -/
theorem trip_chain_level_mono (conf : msm_thermal_tuners) (temp : Nat) (f : Frame)
    (ho : thresholds_ordered conf) :
    (f.thermal_throttled = 1 → conf.reset_low_thresh < temp →
      1 ≤ (trip_chain conf temp f).thermal_throttled) ∧
    (f.thermal_throttled = 2 → conf.reset_mid_thresh < temp →
      2 ≤ (trip_chain conf temp f).thermal_throttled) ∧
    (f.thermal_throttled = 3 → conf.reset_high_thresh < temp →
      3 ≤ (trip_chain conf temp f).thermal_throttled) := by
  obtain ⟨o1, o2, o3, o4, o5, o6, o7⟩ := ho
  refine ⟨fun hL ht => ?_, fun hL ht => ?_, fun hL ht => ?_⟩ <;>
    (unfold trip_chain; simp only [update_maxfreq]
     split_ifs <;> first | omega | (dsimp only; omega))

/-- The chain never assigns `saved_maxfreq`. -/
theorem trip_chain_saved (conf : msm_thermal_tuners) (temp : Nat) (f : Frame) :
    (trip_chain conf temp f).saved_maxfreq = f.saved_maxfreq := by
  rcases trip_chain_cases conf temp f with e | ⟨_, _, e⟩ | ⟨k, q, _, _, e⟩ <;> rw [e]

/-- After a successful poll `saved_maxfreq` holds what the refresh at the start
of the poll put there. -/
theorem main_saved (conf : msm_thermal_tuners) (s : Ctl) (temp pmax : Nat)
    (ht : temp ≤ 1000) :
    (msm_thermal_main conf s 0 temp (some pmax)).ctl.saved_maxfreq =
      (if s.thermal_throttled = 0 ∨ s.saved_maxfreq < pmax then pmax
       else s.saved_maxfreq) := by
  rw [main_valid conf s temp pmax ht]
  exact trip_chain_saved conf temp ⟨s.thermal_throttled,
    (if s.thermal_throttled = 0 ∨ s.saved_maxfreq < pmax then pmax
     else s.saved_maxfreq), s.maxfreq, pmax, []⟩

/-- A poll either fails early, changing nothing, or is a successful poll. -/
theorem main_cases (conf : msm_thermal_tuners) (s : Ctl) (ret : Int) (temp : Nat)
    (policy : Option Nat) :
    msm_thermal_main conf s ret temp policy = ⟨s, policy, []⟩ ∨
    (ret = 0 ∧ temp ≤ 1000 ∧ ∃ pmax, policy = some pmax) := by
  by_cases h1 : ret ≠ 0 ∨ temp > 1000
  · exact Or.inl (main_abort conf s ret temp policy (by tauto))
  · cases policy with
    | none => exact Or.inl (main_abort conf s ret temp none (Or.inr (Or.inr rfl)))
    | some pmax => exact Or.inr ⟨by omega, by omega, pmax, rfl⟩

/-- The chain keeps the level within 0..3. -/
theorem trip_chain_level_le (conf : msm_thermal_tuners) (temp : Nat) (f : Frame)
    (h : f.thermal_throttled ≤ 3) : (trip_chain conf temp f).thermal_throttled ≤ 3 := by
  unfold trip_chain
  split_ifs <;> first | exact h | (dsimp only [update_maxfreq]; omega)

/-- One poll keeps the level within 0..3. -/
theorem tick_level_le (conf : msm_thermal_tuners) (s : Ctl) (ret : Int) (temp : Nat)
    (policy : Option Nat) (h : s.thermal_throttled ≤ 3) :
    (msm_thermal_main conf s ret temp policy).ctl.thermal_throttled ≤ 3 := by
  rcases main_cases conf s ret temp policy with e | ⟨hr, ht, pmax, hp⟩
  · rw [e]; exact h
  · subst hr; subst hp
    rw [main_valid conf s temp pmax ht]
    exact trip_chain_level_le conf temp ⟨s.thermal_throttled,
      (if s.thermal_throttled = 0 ∨ s.saved_maxfreq < pmax then pmax
       else s.saved_maxfreq), s.maxfreq, pmax, []⟩ h

/-- In every reachable state the level is at most 3. -/
theorem reachable_level_le {s : Ctl} (h : Reachable s) : s.thermal_throttled ≤ 3 := by
  induction h with
  | init => exact Nat.zero_le _
  | step conf s ret temp policy _ ih => exact tick_level_le conf s ret temp policy ih

/-- The chain keeps `maxfreq` equal to the frequency paired with the level. -/
theorem trip_chain_cap_of (conf : msm_thermal_tuners) (temp : Nat) (f : Frame)
    (h : f.maxfreq = capOf conf f.thermal_throttled) :
    (trip_chain conf temp f).maxfreq =
      capOf conf (trip_chain conf temp f).thermal_throttled := by
  unfold trip_chain
  split_ifs <;> first | exact h | rfl

/-- One poll keeps `maxfreq` equal to the frequency paired with the level, as
long as the tunables are the ones the pairing is taken from. -/
theorem tick_keeps_cap_of (conf : msm_thermal_tuners) (s : Ctl) (ret : Int)
    (temp : Nat) (policy : Option Nat)
    (h : s.maxfreq = capOf conf s.thermal_throttled) :
    (msm_thermal_main conf s ret temp policy).ctl.maxfreq =
      capOf conf (msm_thermal_main conf s ret temp policy).ctl.thermal_throttled := by
  rcases main_cases conf s ret temp policy with e | ⟨hr, ht, pmax, hp⟩
  · rw [e]; exact h
  · subst hr; subst hp
    rw [main_valid conf s temp pmax ht]
    exact trip_chain_cap_of conf temp ⟨s.thermal_throttled,
      (if s.thermal_throttled = 0 ∨ s.saved_maxfreq < pmax then pmax
       else s.saved_maxfreq), s.maxfreq, pmax, []⟩ h

/-- Under fixed tunables every reachable state has `maxfreq` equal to the
frequency paired with its level. -/
theorem reachable_under_cap_of {conf : msm_thermal_tuners} {s : Ctl}
    (h : ReachableUnder conf s) : s.maxfreq = capOf conf s.thermal_throttled := by
  induction h with
  | init => rfl
  | step s ret temp policy _ ih => exact tick_keeps_cap_of conf s ret temp policy ih

/-- With the thresholds interleaved as
`reset_low < trip_low ≤ reset_mid < trip_mid ≤ reset_high < trip_high`, the
level the chain produces from a given level in 0..3 is monotone in the
temperature. -/
theorem trip_chain_temp_mono (conf : msm_thermal_tuners) (t1 t2 : Nat) (f1 f2 : Frame)
    (h1 : conf.reset_low_thresh < conf.trip_low_thresh)
    (h2 : conf.trip_low_thresh ≤ conf.reset_mid_thresh)
    (h3 : conf.reset_mid_thresh < conf.trip_mid_thresh)
    (h4 : conf.trip_mid_thresh ≤ conf.reset_high_thresh)
    (h5 : conf.reset_high_thresh < conf.trip_high_thresh)
    (hL : f1.thermal_throttled = f2.thermal_throttled) (hle : f1.thermal_throttled ≤ 3)
    (h12 : t1 ≤ t2) :
    (trip_chain conf t1 f1).thermal_throttled ≤
      (trip_chain conf t2 f2).thermal_throttled := by
  obtain ⟨l1, sv1, m1, u1, c1⟩ := f1
  obtain ⟨l2, sv2, m2, u2, c2⟩ := f2
  simp only at hL hle
  subst hL
  interval_cases l1 <;> simp only [trip_chain, update_maxfreq] <;>
    simp <;> split_ifs <;> first | omega | (dsimp only; omega)

/-- Under `high_water_inv` the refresh at the start of a poll leaves `M` in
`saved_maxfreq`, and the policy maximum is at most `M`. -/
theorem high_water_refresh (M : Nat) (c : Ctl) (m : Nat) (h : high_water_inv M c m) :
    (if c.thermal_throttled = 0 ∨ c.saved_maxfreq < m then m
     else c.saved_maxfreq) = M ∧ m ≤ M := by
  obtain ⟨h0, h1⟩ := h
  by_cases hz : c.thermal_throttled = 0
  · rw [if_pos (Or.inl hz)]
    exact ⟨(h0 hz).2, le_of_eq (h0 hz).2⟩
  · have := h1 hz
    split_ifs with hc
    · rcases hc with hc | hc
      · exact absurd hc hz
      · omega
    · omega

/-- One successful poll preserves `high_water_inv`, with `M` raised by what the
poll wrote. -/
theorem high_water_step (conf : msm_thermal_tuners) (M : Nat) (c : Ctl) (m temp : Nat)
    (h : high_water_inv M c m) :
    high_water_inv ((msm_thermal_main conf c 0 temp (some m)).calls.foldl max M)
      (msm_thermal_main conf c 0 temp (some m)).ctl
      ((msm_thermal_main conf c 0 temp (some m)).policy.getD m) := by
  by_cases ht : temp ≤ 1000
  · obtain ⟨hsv, hm⟩ := high_water_refresh M c m h
    obtain ⟨h0, h1⟩ := h
    rw [main_valid conf c temp m ht, hsv]
    rcases trip_chain_cases conf temp ⟨c.thermal_throttled, M, c.maxfreq, m, []⟩
      with e | ⟨_, _, e⟩ | ⟨k, q, hk, _, e⟩
    · simp only [e, high_water_inv, Option.getD_some]
      refine ⟨fun hz => ?_, fun hz => ?_⟩
      · obtain ⟨a, b⟩ := h0 hz
        simp [a, b]
      · split_ifs <;> first | (simp; done) | (simp; omega)
    · simp [e, high_water_inv]
    · simp only [e, high_water_inv, Option.getD_some]
      refine ⟨fun hz => absurd hz hk, fun _ => ?_⟩
      split_ifs <;> first | (simp; done) | (simp; omega)
  · rw [main_abort conf c 0 temp (some m) (Or.inr (Or.inl (by omega)))]
    exact h

/-- A run of successful polls preserves `high_water_inv`, with `M` raised by
everything the run wrote. -/
theorem poll_end_high_water (conf : msm_thermal_tuners) (temps : List Nat) :
    ∀ (M : Nat) (c : Ctl) (m : Nat), high_water_inv M c m →
      high_water_inv ((poll_writes conf c m temps).foldl max M)
        (poll_end conf c m temps).1 (poll_end conf c m temps).2 := by
  induction temps with
  | nil => intro M c m h; exact h
  | cons t ts ih =>
    intro M c m h
    simp only [poll_end, poll_writes, List.foldl_append]
    exact ih _ _ _ (high_water_step conf M c m t h)

/-- Folding `max` over values that are all at most `C`, starting from `C`,
gives `C`. -/
theorem foldl_max_of_le (C : Nat) (ws : List Nat) (h : ∀ w ∈ ws, w ≤ C) :
    ws.foldl max C = C := by
  induction ws with
  | nil => rfl
  | cons w ws ih =>
    have hw : max C w = C := max_eq_left (h w (List.mem_cons_self _ _))
    simp only [List.foldl_cons, hw]
    exact ih (fun x hx => h x (List.mem_cons_of_mem _ hx))

/-! The claims -/

/-- C1: error atomicity. When `tsens_get_temp` fails, or the reading is above
1000, or `cpufreq_cpu_get(0)` returns no policy, the poll leaves
`thermal_throttled`, `saved_maxfreq` and the pending `maxfreq` as they were and
makes no `update_maxfreq` call. A reading of exactly 1000 is processed: the
refresh of `saved_maxfreq` takes place for every state and every tunables, and
with the built-in tunables the idle driver goes to level 3 and writes 384000. -/
theorem error_tick_is_noop (conf : msm_thermal_tuners) (s : Ctl) (ret : Int)
    (temp : Nat) (policy : Option Nat)
    (h : ret ≠ 0 ∨ temp > 1000 ∨ policy = none) :
    ((msm_thermal_main conf s ret temp policy).ctl = s ∧
      (msm_thermal_main conf s ret temp policy).calls = []) ∧
    (∀ pmax : Nat,
      (msm_thermal_main conf s 0 1000 (some pmax)).ctl.saved_maxfreq =
        (if s.thermal_throttled = 0 ∨ s.saved_maxfreq < pmax then pmax
         else s.saved_maxfreq) ∧
      (msm_thermal_main therm_conf Ctl.init 0 1000 (some pmax)).ctl.thermal_throttled = 3 ∧
      (msm_thermal_main therm_conf Ctl.init 0 1000 (some pmax)).calls = [384000]) := by
  refine ⟨?_, fun pmax => ⟨?_, ?_, ?_⟩⟩
  · rw [main_abort conf s ret temp policy h]
    exact ⟨rfl, rfl⟩
  · rw [main_valid conf s 1000 pmax (le_refl _)]
    simp only [trip_chain, update_maxfreq]
    split_ifs <;> rfl
  · rw [main_valid therm_conf Ctl.init 1000 pmax (le_refl _)]
    simp [trip_chain, update_maxfreq, therm_conf, Ctl.init]
  · rw [main_valid therm_conf Ctl.init 1000 pmax (le_refl _)]
    simp [trip_chain, update_maxfreq, therm_conf, Ctl.init]

/-- Instance of C1 at the reading 1500 with the built-in tunables. -/
theorem error_tick_is_noop_witness :
    ((0 : Int) ≠ 0 ∨ 1500 > 1000 ∨ (some 972000 : Option Nat) = none) ∧
    (msm_thermal_main therm_conf ⟨2, 1512000, 972000⟩ 0 1500 (some 972000)).ctl
      = ⟨2, 1512000, 972000⟩ ∧
    (msm_thermal_main therm_conf ⟨2, 1512000, 972000⟩ 0 1500 (some 972000)).calls = [] :=
  ⟨Or.inr (Or.inl (by decide)),
   (error_tick_is_noop therm_conf ⟨2, 1512000, 972000⟩ 0 1500 (some 972000)
      (Or.inr (Or.inl (by decide)))).1⟩

/-- C2: with the built-in tunables, from the load-time state and any initial
`user_policy.max`, the readings 85, 85, 70, 62, 58 give the throttle levels
3, 3, 2, 1, 0. -/
theorem end_to_end_levels (pmax : Nat) :
    (poll_run therm_conf Ctl.init pmax [85, 85, 70, 62, 58]).map
      (fun o => o.ctl.thermal_throttled) = [3, 3, 2, 1, 0] := by
  simp [poll_run, msm_thermal_main, trip_chain, update_maxfreq, therm_conf, Ctl.init]

/-- C3, as stated, fails: with the built-in tunables and an initial maximum of
1512000, the calls made on the readings 85, 85, 70, 62, 58 are not
`384000, (none), 972000, 1188000, x` for any `x`; the second poll at 85 calls
`update_maxfreq` again. -/
theorem end_to_end_trace_second_tick_writes :
    ¬ ∃ x, (poll_run therm_conf Ctl.init 1512000 [85, 85, 70, 62, 58]).map
      (fun o => o.calls) = [[384000], [], [972000], [1188000], [x]] := by
  rintro ⟨x, h⟩
  have e : (poll_run therm_conf Ctl.init 1512000 [85, 85, 70, 62, 58]).map
      (fun o => o.calls) = [[384000], [384000], [972000], [1188000], [1512000]] := by
    rfl
  rw [e] at h
  simp at h

/-- C3, amended: with the built-in tunables, from the load-time state and any
initial maximum `pmax` that only `update_maxfreq` changes, the five polls on
85, 85, 70, 62, 58 call `update_maxfreq` with 384000, 384000 (the pending
frequency is written again), 972000, 1188000 and finally `saved_maxfreq`, whose
value by then is the larger of `pmax` and 1188000. -/
theorem end_to_end_trace (pmax : Nat) :
    (poll_run therm_conf Ctl.init pmax [85, 85, 70, 62, 58]).map (fun o => o.calls)
      = [[384000], [384000], [972000], [1188000], [max pmax 1188000]] ∧
    (poll_run therm_conf Ctl.init pmax [85, 85, 70, 62, 58]).map
      (fun o => o.ctl.saved_maxfreq)
      = [pmax, max pmax 384000, max pmax 384000, max pmax 972000, max pmax 1188000] := by
  simp [poll_run, msm_thermal_main, trip_chain, update_maxfreq, therm_conf, Ctl.init]
  refine ⟨?_, ?_, ?_, ?_, ?_⟩ <;> split_ifs <;> omega

/-- C4, as stated, fails: the state left by one poll at 85 (level 3, pending
frequency 384000) is reachable, no guard of the chain holds at 85 in it, and
yet the next poll at 85 calls `update_maxfreq`. -/
theorem no_transition_tick_still_writes :
    Reachable ⟨3, 1512000, 384000⟩ ∧ (85 : Nat) ≤ 1000 ∧
    no_rule_fires therm_conf 85 3 ∧
    (msm_thermal_main therm_conf ⟨3, 1512000, 384000⟩ 0 85 (some 384000)).calls
      = [384000] := by
  refine ⟨?_, by decide, by decide, by rfl⟩
  exact Reachable.step therm_conf Ctl.init 0 85 (some 1512000) Reachable.init

/-- C4, amended: in a reachable state, a successful poll at a temperature for
which no guard of the chain holds leaves `thermal_throttled` and the pending
`maxfreq` unchanged; it calls `update_maxfreq` once, with the pending `maxfreq`,
when that is non-zero, and makes no call when it is zero, which is the case
whenever the driver is not throttled. -/
theorem no_transition_tick (conf : msm_thermal_tuners) (s : Ctl) (temp pmax : Nat)
    (hr : Reachable s) (ht : temp ≤ 1000)
    (hn : no_rule_fires conf temp s.thermal_throttled) :
    (msm_thermal_main conf s 0 temp (some pmax)).ctl.thermal_throttled
      = s.thermal_throttled ∧
    (msm_thermal_main conf s 0 temp (some pmax)).ctl.maxfreq = s.maxfreq ∧
    (msm_thermal_main conf s 0 temp (some pmax)).calls =
      (if s.maxfreq ≠ 0 then [s.maxfreq] else []) ∧
    (s.thermal_throttled = 0 →
      (msm_thermal_main conf s 0 temp (some pmax)).calls = []) := by
  have e := trip_chain_no_rule conf temp ⟨s.thermal_throttled,
          (if s.thermal_throttled = 0 ∨ s.saved_maxfreq < pmax then pmax
           else s.saved_maxfreq), s.maxfreq, pmax, []⟩ hn
  rw [main_valid conf s temp pmax ht]
  simp only [e]
  refine ⟨trivial, trivial, ?_, ?_⟩
  · split_ifs <;> simp
  · intro h0
    simp [reachable_idle_cap hr h0]

/-- Instances of the amended C4 with the built-in tunables: the state left by a
poll at 85 (level 3, pending 384000) polled again at 85 keeps its level and
pending frequency and calls `update_maxfreq(384000)` once more; the idle driver
polled at 50 makes no call. -/
theorem no_transition_tick_witness :
    (Reachable ⟨3, 1512000, 384000⟩ ∧ (85 : Nat) ≤ 1000 ∧
      no_rule_fires therm_conf 85 3 ∧
      (msm_thermal_main therm_conf ⟨3, 1512000, 384000⟩ 0 85
        (some 384000)).ctl.thermal_throttled = 3 ∧
      (msm_thermal_main therm_conf ⟨3, 1512000, 384000⟩ 0 85
        (some 384000)).ctl.maxfreq = 384000 ∧
      (msm_thermal_main therm_conf ⟨3, 1512000, 384000⟩ 0 85 (some 384000)).calls
        = [384000]) ∧
    (Reachable Ctl.init ∧ (50 : Nat) ≤ 1000 ∧ no_rule_fires therm_conf 50 0 ∧
      (msm_thermal_main therm_conf Ctl.init 0 50
        (some 1512000)).ctl.thermal_throttled = 0 ∧
      (msm_thermal_main therm_conf Ctl.init 0 50 (some 1512000)).calls = []) :=
  ⟨⟨Reachable.step therm_conf Ctl.init 0 85 (some 1512000) Reachable.init, by decide,
    by decide,
    (no_transition_tick therm_conf ⟨3, 1512000, 384000⟩ 85 384000
      (Reachable.step therm_conf Ctl.init 0 85 (some 1512000) Reachable.init)
      (by decide) (by decide)).1,
    (no_transition_tick therm_conf ⟨3, 1512000, 384000⟩ 85 384000
      (Reachable.step therm_conf Ctl.init 0 85 (some 1512000) Reachable.init)
      (by decide) (by decide)).2.1,
    (no_transition_tick therm_conf ⟨3, 1512000, 384000⟩ 85 384000
      (Reachable.step therm_conf Ctl.init 0 85 (some 1512000) Reachable.init)
      (by decide) (by decide)).2.2.1⟩,
   ⟨Reachable.init, by decide, by decide,
    (no_transition_tick therm_conf Ctl.init 50 1512000 Reachable.init (by decide)
      (by decide)).1,
    (no_transition_tick therm_conf Ctl.init 50 1512000 Reachable.init (by decide)
      (by decide)).2.2.2 rfl⟩⟩

/-- C5, as stated, fails: with the built-in tunables (which satisfy the
threshold ordering) and a pre-throttle maximum of 300000, below the throttle
frequencies, one poll at 85 throttles to level 3 and the next poll at 58
returns to level 0 writing 384000, not 300000. -/
theorem restore_misses_low_cap :
    thresholds_ordered therm_conf ∧ Reachable Ctl.init ∧
    Ctl.init.thermal_throttled = 0 ∧
    (poll_end therm_conf Ctl.init 300000 [85]).1.thermal_throttled = 3 ∧
    (msm_thermal_main therm_conf (poll_end therm_conf Ctl.init 300000 [85]).1 0 58
      (some (poll_end therm_conf Ctl.init 300000 [85]).2)).ctl.thermal_throttled = 0 ∧
    (msm_thermal_main therm_conf (poll_end therm_conf Ctl.init 300000 [85]).1 0 58
      (some (poll_end therm_conf Ctl.init 300000 [85]).2)).calls = [384000] ∧
    (384000 : Nat) ≠ 300000 := by
  refine ⟨by decide, Reachable.init, rfl, by rfl, by rfl, by rfl, by decide⟩

/-- C5, amended: take a policy whose maximum only `update_maxfreq` changes, any
tunables, and a run of polls that starts in a reachable unthrottled state with
maximum `C`. If after the polls `temps` the driver is throttled and the next
poll returns it to level 0, that poll makes exactly one call, whose argument is
the largest of `C` and the values written earlier in the run. It is `C`
whenever no earlier write exceeds `C`, in particular whenever the three tunable
frequencies are at most `C`; when `C` is below a throttle frequency that was
written, that frequency is restored instead. -/
theorem restore_round_trip (conf : msm_thermal_tuners) (s : Ctl) (C : Nat)
    (temps : List Nat) (temp : Nat)
    (hr : Reachable s) (h0 : s.thermal_throttled = 0)
    (hthr : (poll_end conf s C temps).1.thermal_throttled ≠ 0)
    (hback : (msm_thermal_main conf (poll_end conf s C temps).1 0 temp
      (some (poll_end conf s C temps).2)).ctl.thermal_throttled = 0) :
    (msm_thermal_main conf (poll_end conf s C temps).1 0 temp
      (some (poll_end conf s C temps).2)).calls
        = [(poll_writes conf s C temps).foldl max C] ∧
    ((∀ w ∈ poll_writes conf s C temps, w ≤ C) →
      (msm_thermal_main conf (poll_end conf s C temps).1 0 temp
        (some (poll_end conf s C temps).2)).calls = [C]) ∧
    (conf.freq_low_thresh ≤ C → conf.freq_mid_thresh ≤ C →
      conf.freq_high_thresh ≤ C →
      (msm_thermal_main conf (poll_end conf s C temps).1 0 temp
        (some (poll_end conf s C temps).2)).calls = [C]) := by
  have hi : high_water_inv C s C :=
    ⟨fun _ => ⟨reachable_idle_cap hr h0, rfl⟩, fun h => absurd h0 h⟩
  have hinv := poll_end_high_water conf temps C s C hi
  have key : (msm_thermal_main conf (poll_end conf s C temps).1 0 temp
      (some (poll_end conf s C temps).2)).calls
        = [(poll_writes conf s C temps).foldl max C] := by
    generalize (poll_writes conf s C temps).foldl max C = M at *
    generalize (poll_end conf s C temps).1 = c at *
    generalize (poll_end conf s C temps).2 = m at *
    obtain ⟨hsv, _⟩ := high_water_refresh M c m hinv
    by_cases ht : temp ≤ 1000
    · rw [main_valid conf c temp m ht, hsv] at hback ⊢
      rcases trip_chain_cases conf temp ⟨c.thermal_throttled, M, c.maxfreq, m, []⟩
        with e | ⟨_, _, e⟩ | ⟨k, q, hk, hq, e⟩
      · simp only [e] at hback
        exact absurd hback hthr
      · simp [e]
      · simp only [e] at hback
        exact absurd hback hk
    · rw [main_abort conf c 0 temp (some m) (Or.inr (Or.inl (by omega)))] at hback
      exact absurd hback hthr
  refine ⟨key, fun hw => ?_, fun hl hm hh => ?_⟩
  · rw [key, foldl_max_of_le C _ hw]
  · have hi2 : restore_inv C s C :=
      ⟨fun _ => ⟨reachable_idle_cap hr h0, rfl⟩, fun h => absurd h0 h, le_refl _, by
        rw [reachable_idle_cap hr h0]; exact Nat.zero_le _⟩
    have hinv2 := poll_end_inv conf C hl hm hh temps s C hi2
    have hinv3 := hinv
    generalize (poll_writes conf s C temps).foldl max C = M at *
    generalize (poll_end conf s C temps).1 = c at *
    generalize (poll_end conf s C temps).2 = m at *
    have e1 := hinv2.2.1 hthr
    have e2 := hinv3.2 hthr
    have e3 := hinv2.2.2.1
    have : M = C := by omega
    rw [key, this]

/-- Instances of the amended C5 with the built-in tunables, one poll at 85 and
the returning poll at 58: from a maximum of 300000, below the written throttle
frequency 384000, the restore writes 384000; from 500000, above it (though
below `freq_mid_thresh` and `freq_low_thresh`), the restore writes 500000. -/
theorem restore_round_trip_witness :
    (poll_end therm_conf Ctl.init 300000 [85]).1.thermal_throttled ≠ 0 ∧
    (msm_thermal_main therm_conf (poll_end therm_conf Ctl.init 300000 [85]).1 0 58
      (some (poll_end therm_conf Ctl.init 300000 [85]).2)).ctl.thermal_throttled = 0 ∧
    (msm_thermal_main therm_conf (poll_end therm_conf Ctl.init 300000 [85]).1 0 58
      (some (poll_end therm_conf Ctl.init 300000 [85]).2)).calls = [384000] ∧
    (poll_end therm_conf Ctl.init 500000 [85]).1.thermal_throttled ≠ 0 ∧
    (msm_thermal_main therm_conf (poll_end therm_conf Ctl.init 500000 [85]).1 0 58
      (some (poll_end therm_conf Ctl.init 500000 [85]).2)).ctl.thermal_throttled = 0 ∧
    (msm_thermal_main therm_conf (poll_end therm_conf Ctl.init 500000 [85]).1 0 58
      (some (poll_end therm_conf Ctl.init 500000 [85]).2)).calls = [500000] :=
  ⟨by decide, by rfl,
   (restore_round_trip therm_conf Ctl.init 300000 [85] 58 Reachable.init rfl
      (by decide) (by rfl)).1.trans (by rfl),
   by decide, by rfl,
   (restore_round_trip therm_conf Ctl.init 500000 [85] 58 Reachable.init rfl
      (by decide) (by rfl)).2.1 (by decide)⟩

/-- C6: hysteresis. Under the threshold ordering, a successful poll from level
1, 2 or 3 whose temperature is strictly above `reset_low_thresh`,
`reset_mid_thresh` or `reset_high_thresh` respectively leaves the level at
least where it was, whatever the other statics and the policy maximum are. -/
theorem hysteresis_above_reset (conf : msm_thermal_tuners) (s : Ctl) (temp pmax : Nat)
    (ho : thresholds_ordered conf) (ht : temp ≤ 1000) :
    (s.thermal_throttled = 1 → conf.reset_low_thresh < temp →
      1 ≤ (msm_thermal_main conf s 0 temp (some pmax)).ctl.thermal_throttled) ∧
    (s.thermal_throttled = 2 → conf.reset_mid_thresh < temp →
      2 ≤ (msm_thermal_main conf s 0 temp (some pmax)).ctl.thermal_throttled) ∧
    (s.thermal_throttled = 3 → conf.reset_high_thresh < temp →
      3 ≤ (msm_thermal_main conf s 0 temp (some pmax)).ctl.thermal_throttled) := by
  rw [main_valid conf s temp pmax ht]
  exact trip_chain_level_mono conf temp ⟨s.thermal_throttled,
    (if s.thermal_throttled = 0 ∨ s.saved_maxfreq < pmax then pmax
     else s.saved_maxfreq), s.maxfreq, pmax, []⟩ ho

/-- Instance of C6: level 2 at 67 degrees (above `reset_mid_thresh = 65`, below
`trip_mid_thresh = 69`) with the built-in tunables. -/
theorem hysteresis_above_reset_witness :
    thresholds_ordered therm_conf ∧ (67 : Nat) ≤ 1000 ∧
    2 ≤ (msm_thermal_main therm_conf ⟨2, 1512000, 972000⟩ 0 67
      (some 972000)).ctl.thermal_throttled :=
  ⟨by decide, by decide,
   (hysteresis_above_reset therm_conf ⟨2, 1512000, 972000⟩ 67 972000 (by decide)
      (by decide)).2.1 rfl (by decide)⟩

/-- C7: unthrottled quiescence. With `trip_low < trip_mid < trip_high`, a
successful poll from a reachable state at level 0 with a temperature below
`trip_low_thresh` leaves the level at 0 and makes no `update_maxfreq` call. -/
theorem idle_below_trip_low (conf : msm_thermal_tuners) (s : Ctl) (temp pmax : Nat)
    (h12 : conf.trip_low_thresh < conf.trip_mid_thresh)
    (h23 : conf.trip_mid_thresh < conf.trip_high_thresh)
    (hr : Reachable s) (h0 : s.thermal_throttled = 0)
    (ht : temp ≤ 1000) (hlt : temp < conf.trip_low_thresh) :
    (msm_thermal_main conf s 0 temp (some pmax)).ctl.thermal_throttled = 0 ∧
    (msm_thermal_main conf s 0 temp (some pmax)).calls = [] := by
  have hn : no_rule_fires conf temp s.thermal_throttled := by
    unfold no_rule_fires
    rw [h0]
    refine ⟨?_, ?_, ?_, ?_, ?_, ?_⟩ <;> omega
  have e := trip_chain_no_rule conf temp ⟨s.thermal_throttled,
          (if s.thermal_throttled = 0 ∨ s.saved_maxfreq < pmax then pmax
           else s.saved_maxfreq), s.maxfreq, pmax, []⟩ hn
  rw [main_valid conf s temp pmax ht]
  simp only [e]
  simp [h0, reachable_idle_cap hr h0]

/-- Instance of C7: the state after a full throttle-and-restore cycle, polled at
63 degrees with the built-in tunables. -/
theorem idle_below_trip_low_witness :
    Reachable (msm_thermal_main therm_conf
      (msm_thermal_main therm_conf Ctl.init 0 66 (some 1512000)).ctl 0 58
      (some 1188000)).ctl ∧
    (msm_thermal_main therm_conf
      (msm_thermal_main therm_conf
        (msm_thermal_main therm_conf Ctl.init 0 66 (some 1512000)).ctl 0 58
        (some 1188000)).ctl 0 63 (some 1512000)).ctl.thermal_throttled = 0 ∧
    (msm_thermal_main therm_conf
      (msm_thermal_main therm_conf
        (msm_thermal_main therm_conf Ctl.init 0 66 (some 1512000)).ctl 0 58
        (some 1188000)).ctl 0 63 (some 1512000)).calls = [] :=
  ⟨Reachable.step _ _ _ _ _ (Reachable.step _ _ _ _ _ Reachable.init),
   idle_below_trip_low therm_conf _ 63 1512000 (by decide) (by decide)
     (Reachable.step _ _ _ _ _ (Reachable.step _ _ _ _ _ Reachable.init))
     (by rfl) (by decide) (by decide)⟩

/-- C8: low trip. From the load-time state, for any tunables with
`freq_low_thresh > 0`, a successful poll with
`trip_low_thresh ≤ temp < trip_mid_thresh` sets the level to 1, records the
policy's current maximum in `saved_maxfreq`, and makes exactly one call,
`update_maxfreq(freq_low_thresh)`. -/
theorem low_trip_from_init (conf : msm_thermal_tuners) (temp pmax : Nat)
    (hf : 0 < conf.freq_low_thresh) (ht : temp ≤ 1000)
    (h1 : conf.trip_low_thresh ≤ temp) (h2 : temp < conf.trip_mid_thresh) :
    (msm_thermal_main conf Ctl.init 0 temp (some pmax)).ctl.thermal_throttled = 1 ∧
    (msm_thermal_main conf Ctl.init 0 temp (some pmax)).ctl.saved_maxfreq = pmax ∧
    (msm_thermal_main conf Ctl.init 0 temp (some pmax)).calls
      = [conf.freq_low_thresh] := by
  have hne : conf.freq_low_thresh ≠ 0 := by omega
  rw [main_valid conf Ctl.init temp pmax ht]
  simp [trip_chain, Ctl.init, h1, h2, hne]

/-- Instance of C8: 66 degrees with the built-in tunables and a policy maximum
of 1512000. -/
theorem low_trip_from_init_witness :
    (msm_thermal_main therm_conf Ctl.init 0 66 (some 1512000)).ctl.thermal_throttled = 1 ∧
    (msm_thermal_main therm_conf Ctl.init 0 66 (some 1512000)).ctl.saved_maxfreq
      = 1512000 ∧
    (msm_thermal_main therm_conf Ctl.init 0 66 (some 1512000)).calls = [1188000] :=
  low_trip_from_init therm_conf 66 1512000 (by decide) (by decide) (by decide)
    (by decide)

/-- C9: low clear from level 1. For any tunables and any state at level 1, a
successful poll with `temp ≤ reset_low_thresh` sets the level to 0, makes
exactly one call, `update_maxfreq(saved_maxfreq)` with `saved_maxfreq` as it
stands after the refresh at the start of the poll, and leaves `maxfreq = 0`. -/
theorem low_clear_from_level_one (conf : msm_thermal_tuners) (s : Ctl) (temp pmax : Nat)
    (hL : s.thermal_throttled = 1)
    (ht : temp ≤ 1000) (hle : temp ≤ conf.reset_low_thresh) :
    (msm_thermal_main conf s 0 temp (some pmax)).ctl.thermal_throttled = 0 ∧
    (msm_thermal_main conf s 0 temp (some pmax)).calls =
      [(msm_thermal_main conf s 0 temp (some pmax)).ctl.saved_maxfreq] ∧
    (msm_thermal_main conf s 0 temp (some pmax)).ctl.saved_maxfreq =
      (if s.saved_maxfreq < pmax then pmax else s.saved_maxfreq) ∧
    (msm_thermal_main conf s 0 temp (some pmax)).ctl.maxfreq = 0 := by
  have g1 : ¬ (temp ≥ conf.trip_low_thresh ∧ temp < conf.trip_mid_thresh ∧
      (1 : Nat) = 0) := by omega
  have g2 : temp ≤ conf.reset_low_thresh ∧ (1 : Nat) ≠ 0 := ⟨hle, by decide⟩
  rw [main_valid conf s temp pmax ht]
  simp only [trip_chain, hL, if_neg g1, if_pos g2, update_maxfreq]
  simp

/-- Instance of C9: level 1 at 58 degrees with the built-in tunables. -/
theorem low_clear_from_level_one_witness :
    (msm_thermal_main therm_conf ⟨1, 1512000, 1188000⟩ 0 58
      (some 1188000)).ctl.thermal_throttled = 0 ∧
    (msm_thermal_main therm_conf ⟨1, 1512000, 1188000⟩ 0 58 (some 1188000)).calls
      = [1512000] :=
  ⟨(low_clear_from_level_one therm_conf ⟨1, 1512000, 1188000⟩ 58 1188000 rfl
      (by decide) (by decide)).1, by rfl⟩

/-- C10: mid trip from level 1. Under the threshold ordering and with
`freq_mid_thresh > 0`, a successful poll from any state at level 1 with
`trip_mid_thresh ≤ temp < trip_high_thresh` sets the level to 2 and makes
exactly one call, `update_maxfreq(freq_mid_thresh)`. -/
theorem mid_trip_from_level_one (conf : msm_thermal_tuners) (s : Ctl) (temp pmax : Nat)
    (ho : thresholds_ordered conf) (hf : 0 < conf.freq_mid_thresh)
    (hL : s.thermal_throttled = 1) (ht : temp ≤ 1000)
    (h1 : conf.trip_mid_thresh ≤ temp) (h2 : temp < conf.trip_high_thresh) :
    (msm_thermal_main conf s 0 temp (some pmax)).ctl.thermal_throttled = 2 ∧
    (msm_thermal_main conf s 0 temp (some pmax)).calls = [conf.freq_mid_thresh] := by
  obtain ⟨o1, o2, o3, o4, o5, o6, o7⟩ := ho
  have g1 : ¬ (temp ≥ conf.trip_low_thresh ∧ temp < conf.trip_mid_thresh ∧
      (1 : Nat) = 0) := by omega
  have g2 : ¬ (temp ≤ conf.reset_low_thresh ∧ (1 : Nat) ≠ 0) := by omega
  have g3 : temp ≥ conf.trip_mid_thresh ∧ temp < conf.trip_high_thresh ∧
      (1 : Nat) < 2 := ⟨h1, h2, by decide⟩
  have hne : conf.freq_mid_thresh ≠ 0 := by omega
  rw [main_valid conf s temp pmax ht]
  simp only [trip_chain, hL, if_neg g1, if_neg g2, if_pos g3]
  simp [hne]

/-- Instance of C10: level 1 at 70 degrees with the built-in tunables. -/
theorem mid_trip_from_level_one_witness :
    thresholds_ordered therm_conf ∧
    (msm_thermal_main therm_conf ⟨1, 1512000, 1188000⟩ 0 70
      (some 1188000)).ctl.thermal_throttled = 2 ∧
    (msm_thermal_main therm_conf ⟨1, 1512000, 1188000⟩ 0 70 (some 1188000)).calls
      = [972000] :=
  ⟨by decide,
   mid_trip_from_level_one therm_conf ⟨1, 1512000, 1188000⟩ 70 1188000 (by decide)
     (by decide) rfl (by decide) (by decide) (by decide)⟩

/-- C11, as stated, fails in both directions. Throttled at level 2 with
`saved_maxfreq = 1512000` and a policy maximum of 972000, which is lower, the
poll does not overwrite `saved_maxfreq`; throttled with `saved_maxfreq = 972000`
and a policy maximum of 1512000, which is not lower, it does. -/
theorem refresh_not_on_lower_cap :
    ((2 : Nat) > 0 ∧ (972000 : Nat) < 1512000 ∧
      (msm_thermal_main therm_conf ⟨2, 1512000, 972000⟩ 0 67
        (some 972000)).ctl.saved_maxfreq ≠ 972000) ∧
    ((2 : Nat) > 0 ∧ ¬ ((1512000 : Nat) < 972000) ∧
      (msm_thermal_main therm_conf ⟨2, 972000, 972000⟩ 0 67
        (some 1512000)).ctl.saved_maxfreq ≠ 972000) := by
  have e1 : (msm_thermal_main therm_conf ⟨2, 1512000, 972000⟩ 0 67
      (some 972000)).ctl.saved_maxfreq = 1512000 := by rfl
  have e2 : (msm_thermal_main therm_conf ⟨2, 972000, 972000⟩ 0 67
      (some 1512000)).ctl.saved_maxfreq = 1512000 := by rfl
  rw [e1, e2]
  decide

/-- C11, amended: in every successful poll, `saved_maxfreq` is overwritten with
the policy's current maximum exactly when the driver is not throttled, or is
throttled and `saved_maxfreq` is lower than the policy's current maximum;
otherwise it is left unchanged. The chain that follows does not touch it. -/
theorem saved_refresh_rule (conf : msm_thermal_tuners) (s : Ctl) (temp pmax : Nat)
    (ht : temp ≤ 1000) :
    (msm_thermal_main conf s 0 temp (some pmax)).ctl.saved_maxfreq =
      (if s.thermal_throttled = 0 ∨ s.saved_maxfreq < pmax then pmax
       else s.saved_maxfreq) :=
  main_saved conf s temp pmax ht

/-- Instance of the amended C11: throttled at level 2, `saved_maxfreq = 972000`,
policy maximum raised to 1512000. -/
theorem saved_refresh_rule_witness :
    (67 : Nat) ≤ 1000 ∧
    (msm_thermal_main therm_conf ⟨2, 972000, 972000⟩ 0 67
      (some 1512000)).ctl.saved_maxfreq =
      (if (2 : Nat) = 0 ∨ (972000 : Nat) < 1512000 then 1512000 else 972000) :=
  ⟨by decide, saved_refresh_rule therm_conf ⟨2, 972000, 972000⟩ 67 1512000 (by decide)⟩

/-- C12: no downward ratchet. For every poll (successful or not) that starts
throttled, `saved_maxfreq` after the poll is at least what it was before; so a
poll after which `saved_maxfreq` is smaller started with the level at 0. -/
theorem saved_no_downward_ratchet (conf : msm_thermal_tuners) (s : Ctl) (ret : Int)
    (temp : Nat) (policy : Option Nat) :
    (s.thermal_throttled ≠ 0 →
      s.saved_maxfreq ≤ (msm_thermal_main conf s ret temp policy).ctl.saved_maxfreq) ∧
    ((msm_thermal_main conf s ret temp policy).ctl.saved_maxfreq < s.saved_maxfreq →
      s.thermal_throttled = 0) := by
  have key : s.thermal_throttled ≠ 0 →
      s.saved_maxfreq ≤ (msm_thermal_main conf s ret temp policy).ctl.saved_maxfreq := by
    intro hL
    rcases main_cases conf s ret temp policy with e | ⟨hr, ht, pmax, hp⟩
    · rw [e]
    · subst hr; subst hp
      rw [main_saved conf s temp pmax ht]
      split_ifs <;> omega
  refine ⟨key, fun hlt => ?_⟩
  by_contra hL
  exact absurd (key hL) (by omega)

/-- Instance of C12: throttled at level 3 with `saved_maxfreq = 1512000` while
the policy maximum is the throttle frequency 384000. -/
theorem saved_no_downward_ratchet_witness :
    (3 : Nat) ≠ 0 ∧
    1512000 ≤ (msm_thermal_main therm_conf ⟨3, 1512000, 384000⟩ 0 85
      (some 384000)).ctl.saved_maxfreq :=
  ⟨by decide,
   (saved_no_downward_ratchet therm_conf ⟨3, 1512000, 384000⟩ 0 85 (some 384000)).1
     (by decide)⟩

/-- C13: at most one actuator write per poll. For every state, tunables, sensor
result and policy, one run of `msm_thermal_main` calls `update_maxfreq` zero
times or once; the low clear branch, which calls it itself, zeroes `maxfreq`
so that the call at the end is skipped. -/
theorem at_most_one_write (conf : msm_thermal_tuners) (s : Ctl) (ret : Int)
    (temp : Nat) (policy : Option Nat) :
    (msm_thermal_main conf s ret temp policy).calls.length ≤ 1 := by
  rcases main_cases conf s ret temp policy with e | ⟨hr, ht, pmax, hp⟩
  · rw [e]; exact Nat.zero_le _
  · subst hr; subst hp
    rw [main_valid conf s temp pmax ht]
    rcases trip_chain_cases conf temp ⟨s.thermal_throttled,
      (if s.thermal_throttled = 0 ∨ s.saved_maxfreq < pmax then pmax
       else s.saved_maxfreq), s.maxfreq, pmax, []⟩
      with e | ⟨_, _, e⟩ | ⟨k, q, _, _, e⟩
    · simp only [e]; split_ifs <;> simp
    · simp [e]
    · simp only [e]; split_ifs <;> simp

/-- C14, as stated, fails: with the built-in tunables, a poll at 58 (at most
`reset_low_thresh = 60`, below `reset_mid_thresh = 65`) takes level 3, and
likewise level 2, directly to level 0 instead of to level 1. -/
theorem low_clear_from_higher_levels :
    (58 : Nat) ≤ therm_conf.reset_low_thresh ∧
    (58 : Nat) < therm_conf.reset_mid_thresh ∧
    (msm_thermal_main therm_conf ⟨3, 1512000, 384000⟩ 0 58
      (some 384000)).ctl.thermal_throttled = 0 ∧
    (msm_thermal_main therm_conf ⟨2, 1512000, 972000⟩ 0 58
      (some 972000)).ctl.thermal_throttled = 0 := by
  refine ⟨by decide, by decide, by rfl, by rfl⟩

/-- C14, amended: for any tunables, a successful poll with
`temp ≤ reset_low_thresh` takes the low clear branch from every throttled level
(1, 2 or 3): the level becomes 0, `maxfreq` becomes 0 and the one call is
`update_maxfreq(saved_maxfreq)`. From level 2 or 3 the mid clear branch (level
1, pending `freq_low_thresh`) is taken when
`reset_low_thresh < temp < reset_mid_thresh`. -/
theorem low_clear_any_level (conf : msm_thermal_tuners) (s : Ctl) (temp pmax : Nat)
    (ht : temp ≤ 1000) (hL : s.thermal_throttled ≠ 0) :
    (temp ≤ conf.reset_low_thresh →
      (msm_thermal_main conf s 0 temp (some pmax)).ctl.thermal_throttled = 0 ∧
      (msm_thermal_main conf s 0 temp (some pmax)).ctl.maxfreq = 0 ∧
      (msm_thermal_main conf s 0 temp (some pmax)).calls =
        [(msm_thermal_main conf s 0 temp (some pmax)).ctl.saved_maxfreq]) ∧
    (conf.reset_low_thresh < temp → temp < conf.reset_mid_thresh →
      1 < s.thermal_throttled →
      (msm_thermal_main conf s 0 temp (some pmax)).ctl.thermal_throttled = 1 ∧
      (msm_thermal_main conf s 0 temp (some pmax)).ctl.maxfreq
        = conf.freq_low_thresh) := by
  rw [main_valid conf s temp pmax ht]
  refine ⟨fun hle => ?_, fun h1 h2 h3 => ?_⟩
  · have g1 : ¬ (temp ≥ conf.trip_low_thresh ∧ temp < conf.trip_mid_thresh ∧
        s.thermal_throttled = 0) := by tauto
    have g2 : temp ≤ conf.reset_low_thresh ∧ s.thermal_throttled ≠ 0 := ⟨hle, hL⟩
    simp only [trip_chain, if_neg g1, if_pos g2, update_maxfreq]
    simp
  · have g1 : ¬ (temp ≥ conf.trip_low_thresh ∧ temp < conf.trip_mid_thresh ∧
        s.thermal_throttled = 0) := by tauto
    have g2 : ¬ (temp ≤ conf.reset_low_thresh ∧ s.thermal_throttled ≠ 0) := by omega
    have g3 : ¬ (temp ≥ conf.trip_mid_thresh ∧ temp < conf.trip_high_thresh ∧
        s.thermal_throttled < 2) := by omega
    have g4 : temp < conf.reset_mid_thresh ∧ s.thermal_throttled > 1 := ⟨h2, h3⟩
    simp only [trip_chain, if_neg g1, if_neg g2, if_neg g3, if_pos g4]
    simp

/-- Instance of the amended C14: level 3 polled at 58 and at 62 with the
built-in tunables. -/
theorem low_clear_any_level_witness :
    ((58 : Nat) ≤ 1000 ∧ (3 : Nat) ≠ 0 ∧
      (msm_thermal_main therm_conf ⟨3, 1512000, 384000⟩ 0 58
        (some 384000)).ctl.thermal_throttled = 0) ∧
    ((62 : Nat) ≤ 1000 ∧
      (msm_thermal_main therm_conf ⟨3, 1512000, 384000⟩ 0 62
        (some 384000)).ctl.thermal_throttled = 1) :=
  ⟨⟨by decide, by decide,
    ((low_clear_any_level therm_conf ⟨3, 1512000, 384000⟩ 58 384000 (by decide)
      (by decide)).1 (by decide)).1⟩,
   ⟨by decide,
    ((low_clear_any_level therm_conf ⟨3, 1512000, 384000⟩ 62 384000 (by decide)
      (by decide)).2 (by decide) (by decide) (by decide)).1⟩⟩

/-- C15: level range invariant. In every state reachable from the load-time
state by any sequence of polls, with arbitrary sensor results, policies and
tunables (changing from poll to poll, ordered or not), `thermal_throttled` is
0, 1, 2 or 3. -/
theorem level_in_range (s : Ctl) (h : Reachable s) :
    s.thermal_throttled = 0 ∨ s.thermal_throttled = 1 ∨ s.thermal_throttled = 2 ∨
      s.thermal_throttled = 3 := by
  have := reachable_level_le h
  omega

/-- Instance of C15: the state after polls at 85 and 70 under the built-in
tunables. -/
theorem level_in_range_witness :
    Reachable (msm_thermal_main therm_conf
      (msm_thermal_main therm_conf Ctl.init 0 85 (some 1512000)).ctl 0 70
      (some 384000)).ctl ∧
    ((msm_thermal_main therm_conf
      (msm_thermal_main therm_conf Ctl.init 0 85 (some 1512000)).ctl 0 70
      (some 384000)).ctl.thermal_throttled = 0 ∨
     (msm_thermal_main therm_conf
      (msm_thermal_main therm_conf Ctl.init 0 85 (some 1512000)).ctl 0 70
      (some 384000)).ctl.thermal_throttled = 1 ∨
     (msm_thermal_main therm_conf
      (msm_thermal_main therm_conf Ctl.init 0 85 (some 1512000)).ctl 0 70
      (some 384000)).ctl.thermal_throttled = 2 ∨
     (msm_thermal_main therm_conf
      (msm_thermal_main therm_conf Ctl.init 0 85 (some 1512000)).ctl 0 70
      (some 384000)).ctl.thermal_throttled = 3) :=
  ⟨Reachable.step _ _ _ _ _ (Reachable.step _ _ _ _ _ Reachable.init),
   level_in_range _ (Reachable.step _ _ _ _ _ (Reachable.step _ _ _ _ _ Reachable.init))⟩

/-- C16: overheat always reaches the highest level. Under the threshold
ordering, a successful poll from any reachable state with
`trip_high_thresh ≤ temp ≤ 1000` ends at level 3; if the level was below 3 and
`freq_high_thresh > 0`, the poll's one call is `update_maxfreq(freq_high_thresh)`. -/
theorem overheat_reaches_level_three (conf : msm_thermal_tuners) (s : Ctl)
    (temp pmax : Nat)
    (ho : thresholds_ordered conf) (hr : Reachable s)
    (h1 : conf.trip_high_thresh ≤ temp) (ht : temp ≤ 1000) :
    (msm_thermal_main conf s 0 temp (some pmax)).ctl.thermal_throttled = 3 ∧
    (s.thermal_throttled < 3 → 0 < conf.freq_high_thresh →
      (msm_thermal_main conf s 0 temp (some pmax)).calls
        = [conf.freq_high_thresh]) := by
  obtain ⟨o1, o2, o3, o4, o5, o6, o7⟩ := ho
  have hle := reachable_level_le hr
  have g1 : ¬ (temp ≥ conf.trip_low_thresh ∧ temp < conf.trip_mid_thresh ∧
      s.thermal_throttled = 0) := by omega
  have g2 : ¬ (temp ≤ conf.reset_low_thresh ∧ s.thermal_throttled ≠ 0) := by omega
  have g3 : ¬ (temp ≥ conf.trip_mid_thresh ∧ temp < conf.trip_high_thresh ∧
      s.thermal_throttled < 2) := by omega
  have g4 : ¬ (temp < conf.reset_mid_thresh ∧ s.thermal_throttled > 1) := by omega
  have g6 : ¬ (temp < conf.reset_high_thresh ∧ s.thermal_throttled > 2) := by omega
  rw [main_valid conf s temp pmax ht]
  by_cases g5 : temp ≥ conf.trip_high_thresh ∧ s.thermal_throttled < 3
  · simp only [trip_chain, if_neg g1, if_neg g2, if_neg g3, if_neg g4, if_pos g5]
    refine ⟨trivial, fun _ hf => ?_⟩
    have hne : conf.freq_high_thresh ≠ 0 := by omega
    simp [hne]
  · simp only [trip_chain, if_neg g1, if_neg g2, if_neg g3, if_neg g4, if_neg g5,
      if_neg g6]
    refine ⟨by omega, fun hlt _ => ?_⟩
    omega

/-- Instance of C16: the idle driver polled at 85 with the built-in tunables. -/
theorem overheat_reaches_level_three_witness :
    thresholds_ordered therm_conf ∧ Reachable Ctl.init ∧
    (msm_thermal_main therm_conf Ctl.init 0 85 (some 1512000)).ctl.thermal_throttled = 3 ∧
    (msm_thermal_main therm_conf Ctl.init 0 85 (some 1512000)).calls = [384000] :=
  ⟨by decide, Reachable.init,
   (overheat_reaches_level_three therm_conf Ctl.init 85 1512000 (by decide)
      Reachable.init (by decide) (by decide)).1,
   (overheat_reaches_level_three therm_conf Ctl.init 85 1512000 (by decide)
      Reachable.init (by decide) (by decide)).2 (by decide) (by decide)⟩

/-- C17, as stated, fails: the built-in tunables do not satisfy
`freq_low < freq_mid < freq_high` (1188000, 972000, 384000), so the stated
invariant as a whole is false for them. -/
theorem default_freqs_not_ascending :
    ¬ (therm_conf.reset_low_thresh < therm_conf.trip_low_thresh ∧
       therm_conf.trip_low_thresh < therm_conf.trip_mid_thresh ∧
       therm_conf.trip_mid_thresh < therm_conf.trip_high_thresh ∧
       therm_conf.reset_mid_thresh < therm_conf.trip_mid_thresh ∧
       therm_conf.reset_high_thresh < therm_conf.trip_high_thresh ∧
       therm_conf.freq_low_thresh < therm_conf.freq_mid_thresh ∧
       therm_conf.freq_mid_thresh < therm_conf.freq_high_thresh) := by
  decide

/-- C17, amended: the built-in tunables are trip/reset/freq 80/75/384000 (high),
69/65/972000 (mid), 64/60/1188000 (low) with a 3000 ms interval; they satisfy
`reset_low < trip_low < trip_mid < trip_high` with each reset threshold below
its trip threshold, and their frequencies descend with the level:
`freq_high < freq_mid < freq_low`. -/
theorem default_conf_ordered :
    therm_conf = ⟨80, 75, 384000, 69, 65, 972000, 64, 60, 1188000, 3000⟩ ∧
    therm_conf.reset_low_thresh < therm_conf.trip_low_thresh ∧
    therm_conf.trip_low_thresh < therm_conf.trip_mid_thresh ∧
    therm_conf.trip_mid_thresh < therm_conf.trip_high_thresh ∧
    therm_conf.reset_mid_thresh < therm_conf.trip_mid_thresh ∧
    therm_conf.reset_high_thresh < therm_conf.trip_high_thresh ∧
    therm_conf.freq_high_thresh < therm_conf.freq_mid_thresh ∧
    therm_conf.freq_mid_thresh < therm_conf.freq_low_thresh := by
  refine ⟨rfl, ?_⟩
  decide

/-- C18 at its failing inputs: with the built-in tunables (which satisfy the
threshold ordering), a poll at exactly `reset_low_thresh` takes level 1 to
level 0, but a poll at exactly `reset_mid_thresh` leaves level 2 at 2 and a
poll at exactly `reset_high_thresh` leaves level 3 at 3: the mid and high
clear branches compare with `<` where the low clear branch compares with `<=`. -/
theorem reset_equal_mid_high_stays :
    thresholds_ordered therm_conf ∧
    (msm_thermal_main therm_conf ⟨1, 1512000, 1188000⟩ 0 therm_conf.reset_low_thresh
      (some 1188000)).ctl.thermal_throttled = 0 ∧
    (msm_thermal_main therm_conf ⟨2, 1512000, 972000⟩ 0 therm_conf.reset_mid_thresh
      (some 972000)).ctl.thermal_throttled = 2 ∧
    (msm_thermal_main therm_conf ⟨3, 1512000, 384000⟩ 0 therm_conf.reset_high_thresh
      (some 384000)).ctl.thermal_throttled = 3 := by
  refine ⟨by decide, by rfl, by rfl, by rfl⟩

/-- C19: cap/level consistency. With the tunables held fixed, every reachable
state has `maxfreq = capOf level`. Consequently a successful poll that ends at
a level `k > 0` with `capOf k > 0` makes exactly the call
`update_maxfreq(capOf k)`, and a successful poll that starts and ends at level
0 makes no call. -/
theorem cap_level_consistent (conf : msm_thermal_tuners) (s : Ctl)
    (h : ReachableUnder conf s) :
    s.maxfreq = capOf conf s.thermal_throttled ∧
    ∀ temp pmax : Nat, temp ≤ 1000 →
      ((msm_thermal_main conf s 0 temp (some pmax)).ctl.thermal_throttled ≠ 0 →
        capOf conf (msm_thermal_main conf s 0 temp (some pmax)).ctl.thermal_throttled
          ≠ 0 →
        (msm_thermal_main conf s 0 temp (some pmax)).calls =
          [capOf conf
            (msm_thermal_main conf s 0 temp (some pmax)).ctl.thermal_throttled]) ∧
      (s.thermal_throttled = 0 →
        (msm_thermal_main conf s 0 temp (some pmax)).ctl.thermal_throttled = 0 →
        (msm_thermal_main conf s 0 temp (some pmax)).calls = []) := by
  have hs := reachable_under_cap_of h
  refine ⟨hs, fun temp pmax ht => ?_⟩
  have hc := trip_chain_cap_of conf temp ⟨s.thermal_throttled,
      (if s.thermal_throttled = 0 ∨ s.saved_maxfreq < pmax then pmax
       else s.saved_maxfreq), s.maxfreq, pmax, []⟩ hs
  rw [main_valid conf s temp pmax ht]
  rcases trip_chain_cases conf temp ⟨s.thermal_throttled,
      (if s.thermal_throttled = 0 ∨ s.saved_maxfreq < pmax then pmax
       else s.saved_maxfreq), s.maxfreq, pmax, []⟩
      with e | ⟨hn, _, e⟩ | ⟨k, q, hk, _, e⟩
  · simp only [e]
    refine ⟨fun _ hcap => ?_, fun h0 _ => ?_⟩
    · have hm : s.maxfreq ≠ 0 := by rw [hs]; exact hcap
      rw [← hs]
      simp [hm]
    · have hz : s.maxfreq = 0 := by rw [hs, h0]; rfl
      simp [hz]
  · simp only [e]
    exact ⟨fun hh => absurd rfl hh, fun h0 _ => absurd h0 hn⟩
  · rw [e] at hc
    simp only [e]
    have hq : q = capOf conf k := hc
    refine ⟨fun _ hcap => ?_, fun _ hk0 => absurd hk0 hk⟩
    have hm : q ≠ 0 := by rw [hq]; exact hcap
    rw [← hq]
    simp [hm]

/-- Instance of C19: under the built-in tunables, the state after a poll at 85
has `maxfreq = 384000 = capOf 3`, and a following poll at 70 ends at level 2
calling `update_maxfreq(972000)`. -/
theorem cap_level_consistent_witness :
    ReachableUnder therm_conf
      (msm_thermal_main therm_conf Ctl.init 0 85 (some 1512000)).ctl ∧
    (msm_thermal_main therm_conf Ctl.init 0 85 (some 1512000)).ctl.maxfreq
      = capOf therm_conf 3 ∧
    (msm_thermal_main therm_conf
      (msm_thermal_main therm_conf Ctl.init 0 85 (some 1512000)).ctl 0 70
      (some 384000)).calls = [capOf therm_conf 2] :=
  ⟨ReachableUnder.step _ _ _ _ ReachableUnder.init,
   (cap_level_consistent therm_conf _
      (ReachableUnder.step Ctl.init 0 85 (some 1512000) ReachableUnder.init)).1,
   ((cap_level_consistent therm_conf _
      (ReachableUnder.step Ctl.init 0 85 (some 1512000) ReachableUnder.init)).2
      70 384000 (by decide)).1 (by decide) (by decide)⟩

/-- C20: monotonicity in temperature. With
`reset_low < trip_low ≤ reset_mid < trip_mid ≤ reset_high < trip_high`, for two
successful polls that start at the same level in 0..3 (other statics and policy
maxima arbitrary) at temperatures `t1 ≤ t2 ≤ 1000`, the level after the poll at
`t1` is at most the level after the poll at `t2`. -/
theorem level_monotone_in_temp (conf : msm_thermal_tuners) (s1 s2 : Ctl)
    (t1 t2 p1 p2 : Nat)
    (h1 : conf.reset_low_thresh < conf.trip_low_thresh)
    (h2 : conf.trip_low_thresh ≤ conf.reset_mid_thresh)
    (h3 : conf.reset_mid_thresh < conf.trip_mid_thresh)
    (h4 : conf.trip_mid_thresh ≤ conf.reset_high_thresh)
    (h5 : conf.reset_high_thresh < conf.trip_high_thresh)
    (hL : s1.thermal_throttled = s2.thermal_throttled) (hle : s1.thermal_throttled ≤ 3)
    (h12 : t1 ≤ t2) (ht : t2 ≤ 1000) :
    (msm_thermal_main conf s1 0 t1 (some p1)).ctl.thermal_throttled ≤
      (msm_thermal_main conf s2 0 t2 (some p2)).ctl.thermal_throttled := by
  rw [main_valid conf s1 t1 p1 (by omega), main_valid conf s2 t2 p2 ht]
  exact trip_chain_temp_mono conf t1 t2
    ⟨s1.thermal_throttled,
      (if s1.thermal_throttled = 0 ∨ s1.saved_maxfreq < p1 then p1
       else s1.saved_maxfreq), s1.maxfreq, p1, []⟩
    ⟨s2.thermal_throttled,
      (if s2.thermal_throttled = 0 ∨ s2.saved_maxfreq < p2 then p2
       else s2.saved_maxfreq), s2.maxfreq, p2, []⟩ h1 h2 h3 h4 h5 hL hle h12

/-- Instance of C20: level 2 under the built-in tunables, polled at 62 (ending
at level 1) and at 70 (ending at level 2). -/
theorem level_monotone_in_temp_witness :
    (62 : Nat) ≤ 70 ∧ (70 : Nat) ≤ 1000 ∧
    (msm_thermal_main therm_conf ⟨2, 1512000, 972000⟩ 0 62
      (some 972000)).ctl.thermal_throttled ≤
    (msm_thermal_main therm_conf ⟨2, 1512000, 972000⟩ 0 70
      (some 972000)).ctl.thermal_throttled :=
  ⟨by decide, by decide,
   level_monotone_in_temp therm_conf ⟨2, 1512000, 972000⟩ ⟨2, 1512000, 972000⟩
     62 70 972000 972000 (by decide) (by decide) (by decide) (by decide) (by decide)
     rfl (by decide) (by decide) (by decide)⟩

end MsmThermal
